import Mathlib

/-!
Shallow embedding of the CANary test-orchestration engine
(`src/testing/test_runner.py`, version 0.1.3).

Strings are modelled as `List Char`; Python integers as `Int` (the counts can
carry the sentinel value -1); the JSON report durations as `Rat` (the code only
passes durations through, it never computes with them).  The regular-expression
searches of the source are modelled exactly:

* `re.search(r"(\d+) passed", s)` scans positions left to right and at each
  position tries a greedy digit run followed by the literal suffix.  Because
  every suffix in the source (" passed", " skipped", " item") starts with a
  non-digit character, backtracking the greedy `\d+` can never help: the only
  viable run at a position is the maximal digit run.  `findNum` embeds this
  scan; `numMatchAt` is the specification-side notion of a match of the
  pattern at one position (the run must not be preceded by a digit, exactly
  the positions at which `re.search` can report a group value).
* `re.search(r"collected (\d+) items?", s)` likewise; the optional final "s"
  never affects the captured group, so the embedded pattern is the literal
  "collected ", a digit run, then the literal " item".
-/

/-- Python `int(run)` on a non-empty string of ASCII digits. -/
def natFromDigits (ds : List Char) : Nat :=
  ds.foldl (fun a c => 10 * a + (c.toNat - 48)) 0

/-- The literal `"collected "` of the pattern `collected (\d+) items?`. -/
def collectedLit : List Char := "collected ".toList

/-- The literal ` item` that must follow the digit run of the collected pattern. -/
def itemLit : List Char := " item".toList

/-- The literal suffix of the pattern `(\d+) passed`. -/
def passedLit : List Char := " passed".toList

/-- The literal suffix of the pattern `(\d+) skipped`. -/
def skippedLit : List Char := " skipped".toList

/-- Python substring test `pat in s` (used for `"collected " in process.stdout`). -/
def containsSub (pat : List Char) : List Char → Bool
  | [] => pat.isPrefixOf []
  | c :: rest => pat.isPrefixOf (c :: rest) || containsSub pat rest

/-- Match of `(\d+)suffix` anchored at the head of `t`: the maximal digit run,
which must be non-empty and immediately followed by `suffix`; yields the
captured number. -/
def numRunHere (suffix t : List Char) : Option Nat :=
  let run := t.takeWhile Char.isDigit
  if run ≠ [] ∧ suffix.isPrefixOf (t.drop run.length) = true then some (natFromDigits run)
  else none

/-- `re.search` for `(\d+)suffix`: scan positions left to right, return the
captured group of the first position that matches. -/
def findNum (suffix : List Char) : List Char → Option Nat
  | [] => none
  | c :: rest =>
    match numRunHere suffix (c :: rest) with
    | some v => some v
    | none => findNum suffix rest

/-- Is position `i` of `s` immediately preceded by a digit?  A digit run whose
head is preceded by a digit is the interior of a longer run, so `re.search`
never reports a group starting there. -/
def precededByDigit (s : List Char) : Nat → Bool
  | 0 => false
  | i + 1 =>
    match s.get? i with
    | some c => c.isDigit
    | none => false

/-- Specification-side notion: the value of a match of `(\d+)suffix` whose
digit run starts at position `i` of `s`. -/
def numMatchAt (suffix s : List Char) (i : Nat) : Option Nat :=
  if precededByDigit s i then none else numRunHere suffix (s.drop i)

/-- Match of `collected (\d+) items?` anchored at the head of `t`. -/
def collectedHere (t : List Char) : Option Nat :=
  if collectedLit.isPrefixOf t then numRunHere itemLit (t.drop collectedLit.length)
  else none

/-- `re.search(r"collected (\d+) items?", s)`: first position that matches. -/
def findCollected : List Char → Option Nat
  | [] => none
  | c :: rest =>
    match collectedHere (c :: rest) with
    | some v => some v
    | none => findCollected rest

/-- Specification-side notion: the value of a match of the collected pattern
starting at position `i` of `s`. -/
def collectedMatchAt (s : List Char) (i : Nat) : Option Nat :=
  collectedHere (s.drop i)

/-- The `TestSummary` dataclass of the source (field defaults as in the code). -/
structure TestSummary where
  total_tests : Int := 0
  passed : Int := 0
  failed : Int := 0
  skipped : Int := 0
  errors : Int := 0
  duration : Rat := 0
deriving Repr, DecidableEq

/-- Outcome of `subprocess.run` on the pytest command: either a completed
process with its exit code and captured stdout, or one of the two exception
paths the source catches (`FileNotFoundError`, any other `Exception`). -/
inductive ExecOutcome where
  | ok (returncode : Int) (stdout : List Char)
  | fileNotFound
  | otherError
deriving DecidableEq

/-- The `summary` object of the JSON report file, modelling the keys the code
or the specification mention.  `none` models an absent key.  The field
`errored` models a report that stores its error count under the key
`"errored"`; the source only ever reads the key `"error"`. -/
structure ReportSummary where
  total : Option Int := none
  passed : Option Int := none
  failed : Option Int := none
  skipped : Option Int := none
  error : Option Int := none
  errored : Option Int := none
  duration : Option Rat := none
deriving DecidableEq

/-- The report-ingestion block of `run_tests`: each field is overwritten by
`rpt_summary.get(key, current)`.  The errors field is read from the key
`"error"`; a value stored under `"errored"` is never consulted. -/
def applyReport (r : ReportSummary) (s : TestSummary) : TestSummary :=
  { total_tests := r.total.getD s.total_tests
    passed := r.passed.getD s.passed
    failed := r.failed.getD s.failed
    skipped := r.skipped.getD s.skipped
    errors := r.error.getD s.errors
    duration := r.duration.getD s.duration }

/-- The exit-code heuristic and textual-parsing stage of `run_tests`.

Exit code 0: if `"collected "` occurs in stdout, the three regex searches fill
`total_tests`/`passed`/`skipped` (a field keeps its 0 default when its pattern
has no match); otherwise `passed` gets the -1 sentinel.

Exit code 1: `failed` gets the -1 sentinel.  The source then attempts
`re.search(r"(\d+) failed", process.stdout)`, but `import re` executes only
inside the exit-code-0 branch, so `re` is an unbound local name here; the
resulting `NameError` is swallowed by the surrounding `except Exception:
pass`, and `failed` keeps the sentinel on every input.

Any other exit code: `errors` gets the -1 sentinel. -/
def parseExitAndText (returncode : Int) (stdout : List Char) : TestSummary :=
  if returncode = 0 then
    if containsSub collectedLit stdout then
      { total_tests :=
          match findCollected stdout with
          | some n => (n : Int)
          | none => 0
        passed :=
          match findNum passedLit stdout with
          | some n => (n : Int)
          | none => 0
        skipped :=
          match findNum skippedLit stdout with
          | some n => (n : Int)
          | none => 0 }
    else { passed := -1 }
  else if returncode = 1 then { failed := -1 }
  else { errors := -1 }

/-- `TestRunner.run_tests`, as a function of the raw execution outcome and of
the parsed report file (`none` = the report file does not exist, is
unparsable, or lacks a `summary` object — all no-op cases in the source).
`FileNotFoundError` or any other exception from `subprocess.run` skips the
report block entirely and returns `TestSummary(errors=1)`. -/
def run_tests (exec : ExecOutcome) (report : Option ReportSummary) : TestSummary :=
  match exec with
  | .fileNotFound => { errors := 1 }
  | .otherError => { errors := 1 }
  | .ok returncode stdout =>
    match report with
    | some rpt => applyReport rpt (parseExitAndText returncode stdout)
    | none => parseExitAndText returncode stdout

/-- The exit-code rendering of the `__main__` block: `sys.exit(1)` when
`summary.failed > 0 or summary.errors > 0`, otherwise the script ends with
exit code 0. -/
def mainExitCode (s : TestSummary) : Int :=
  if 0 < s.failed ∨ 0 < s.errors then 1 else 0

/-- The `TestScope` enumeration. -/
inductive TestScope where
  | unit
  | integration
  | system
  | acceptance
  | smoke
  | all
deriving DecidableEq

/-- The `value` attribute of each scope member. -/
def TestScope.value : TestScope → List Char
  | .unit => "unit".toList
  | .integration => "integration".toList
  | .system => "system".toList
  | .acceptance => "acceptance".toList
  | .smoke => "smoke".toList
  | .all => "all".toList

/-- `os.path.join(dir, name)` for an absolute `dir` and a relative `name`. -/
def pathJoin (dir name : List Char) : List Char :=
  dir ++ [Char.ofNat 47] ++ name

/-- `TestRunner.discover_tests`: the filesystem is abstracted by the predicate
`isdir` (`os.path.isdir`).  The `marker` argument of the source is never used
by the body, so it is omitted. -/
def discover_tests (testDirectory : List Char) (isdir : List Char → Bool)
    (scope : TestScope) : List (List Char) :=
  if scope ≠ TestScope.all ∧ scope ≠ TestScope.smoke then
    if isdir (pathJoin testDirectory scope.value) then [pathJoin testDirectory scope.value]
    else [testDirectory]
  else [testDirectory]

/-- The literal `"1 passed"` checked by the self-test. -/
def onePassedLit : List Char := "1 passed".toList

/-- How one call to `run_self_test` can unfold: the temporary-file creation
raises (no artifact ever reaches the disk), `subprocess.run` raises after the
artifact was created and its path recorded, or the spawned process completes
with an exit code and captured stdout. -/
inductive SelfTestExec where
  | prepareRaises
  | execRaises
  | completes (returncode : Int) (stdout : List Char)

/-- The two facts about the temporary artifact that the `finally` block of the
source inspects: whether the file is on disk (`os.path.exists`) and whether
the local name `test_file_path` was bound (`'test_file_path' in locals()`). -/
structure SelfTestState where
  artifactOnDisk : Bool
  pathRecorded : Bool
deriving DecidableEq

/-- The `try`/`except` body of `run_self_test`: the computed `passed` flag and
the artifact state on entry to `finally`.  On exit code 0 the source sets
`passed = True` both when `"1 passed"` occurs in stdout and, after a warning
log, when it does not. -/
def selfTestBody : SelfTestExec → Bool × SelfTestState
  | .prepareRaises => (false, ⟨false, false⟩)
  | .execRaises => (false, ⟨true, true⟩)
  | .completes returncode stdout =>
    (if returncode = 0 then
      if containsSub onePassedLit stdout then true else true
    else false, ⟨true, true⟩)

/-- The `finally` block: `if 'test_file_path' in locals() and
os.path.exists(test_file_path): os.remove(test_file_path)`. -/
def selfTestCleanup (st : SelfTestState) : SelfTestState :=
  if st.pathRecorded && st.artifactOnDisk then { st with artifactOnDisk := false }
  else st

/-- `TestRunner.run_self_test`: the returned boolean and the final artifact
state. -/
def run_self_test (e : SelfTestExec) : Bool × SelfTestState :=
  let (passed, st) := selfTestBody e
  (passed, selfTestCleanup st)

theorem numRunHere_nil (suffix : List Char) : numRunHere suffix [] = none := rfl

theorem collectedHere_nil : collectedHere [] = none := by decide

theorem collectedMatchAt_of_le (s : List Char) (i : Nat) (h : s.length ≤ i) :
    collectedMatchAt s i = none := by
  unfold collectedMatchAt
  rw [List.drop_eq_nil_of_le h, collectedHere_nil]

theorem numMatchAt_of_le (suffix s : List Char) (i : Nat) (h : s.length ≤ i) :
    numMatchAt suffix s i = none := by
  unfold numMatchAt
  rw [List.drop_eq_nil_of_le h, numRunHere_nil]
  split <;> rfl

theorem collectedMatchAt_agree (s : List Char) (m : Nat)
    (h : ∀ i < s.length, collectedMatchAt s i = none ∨ collectedMatchAt s i = some m) :
    ∀ i, collectedMatchAt s i = none ∨ collectedMatchAt s i = some m := by
  intro i
  by_cases hi : i < s.length
  · exact h i hi
  · exact Or.inl (collectedMatchAt_of_le s i (Nat.le_of_not_lt hi))

theorem numMatchAt_agree (suffix s : List Char) (m : Nat)
    (h : ∀ i < s.length, numMatchAt suffix s i = none ∨ numMatchAt suffix s i = some m) :
    ∀ i, numMatchAt suffix s i = none ∨ numMatchAt suffix s i = some m := by
  intro i
  by_cases hi : i < s.length
  · exact h i hi
  · exact Or.inl (numMatchAt_of_le suffix s i (Nat.le_of_not_lt hi))

theorem collectedMatchAt_none_all (s : List Char)
    (h : ∀ i < s.length, collectedMatchAt s i = none) :
    ∀ i, collectedMatchAt s i = none := by
  intro i
  by_cases hi : i < s.length
  · exact h i hi
  · exact collectedMatchAt_of_le s i (Nat.le_of_not_lt hi)

theorem numMatchAt_none_all (suffix s : List Char)
    (h : ∀ i < s.length, numMatchAt suffix s i = none) :
    ∀ i, numMatchAt suffix s i = none := by
  intro i
  by_cases hi : i < s.length
  · exact h i hi
  · exact numMatchAt_of_le suffix s i (Nat.le_of_not_lt hi)

theorem findCollected_sound (s : List Char) (v : Nat) (h : findCollected s = some v) :
    ∃ i, collectedMatchAt s i = some v := by
  induction s with
  | nil => simp [findCollected] at h
  | cons c rest ih =>
    rw [findCollected] at h
    cases hc : collectedHere (c :: rest) with
    | some w =>
      rw [hc] at h
      cases h
      exact ⟨0, by simpa [collectedMatchAt] using hc⟩
    | none =>
      rw [hc] at h
      obtain ⟨i, hi⟩ := ih h
      exact ⟨i + 1, by simpa [collectedMatchAt] using hi⟩

theorem findCollected_complete (s : List Char) (i v : Nat)
    (h : collectedMatchAt s i = some v) : ∃ w, findCollected s = some w := by
  induction s generalizing i with
  | nil => rw [collectedMatchAt_of_le [] i (Nat.zero_le i)] at h; cases h
  | cons c rest ih =>
    cases hc : collectedHere (c :: rest) with
    | some w => exact ⟨w, by rw [findCollected, hc]⟩
    | none =>
      cases i with
      | zero =>
        unfold collectedMatchAt at h
        rw [List.drop_zero, hc] at h
        cases h
      | succ j =>
        have h2 : collectedMatchAt rest j = some v := by
          simpa [collectedMatchAt] using h
        obtain ⟨w, hw⟩ := ih j h2
        exact ⟨w, by rw [findCollected, hc, hw]⟩


theorem precededByDigit_zero (s : List Char) : precededByDigit s 0 = false := rfl

theorem precededByDigit_cons_one (c : Char) (rest : List Char) :
    precededByDigit (c :: rest) 1 = c.isDigit := rfl

theorem precededByDigit_cons_succ (c : Char) (rest : List Char) (j : Nat) :
    precededByDigit (c :: rest) (j + 2) = precededByDigit rest (j + 1) := rfl

theorem numRunHere_cons_digit (suffix : List Char) (c : Char) (rest : List Char)
    (hc : c.isDigit = true) (v : Nat) (h : numRunHere suffix rest = some v) :
    ∃ w, numRunHere suffix (c :: rest) = some w := by
  unfold numRunHere at h ⊢
  simp only [List.takeWhile_cons, hc, if_true]
  by_cases hcond : (rest.takeWhile Char.isDigit ≠ [] ∧
      suffix.isPrefixOf (rest.drop (rest.takeWhile Char.isDigit).length) = true)
  · refine ⟨natFromDigits (c :: rest.takeWhile Char.isDigit), ?_⟩
    rw [if_pos ?_]
    constructor
    · simp
    · simpa [List.length_cons, List.drop_succ_cons] using hcond.2
  · rw [if_neg hcond] at h
    cases h

theorem findNum_sound (suffix s : List Char) (v : Nat) (h : findNum suffix s = some v) :
    ∃ i, numMatchAt suffix s i = some v := by
  induction s with
  | nil => simp [findNum] at h
  | cons c rest ih =>
    rw [findNum] at h
    cases hc : numRunHere suffix (c :: rest) with
    | some w =>
      rw [hc] at h
      cases h
      refine ⟨0, ?_⟩
      unfold numMatchAt precededByDigit
      rw [List.drop_zero]
      simpa using hc
    | none =>
      rw [hc] at h
      obtain ⟨i, hi⟩ := ih h
      have hpre : precededByDigit rest i = false ∧ numRunHere suffix (rest.drop i) = some v := by
        unfold numMatchAt at hi
        by_cases hp : precededByDigit rest i = true
        · rw [if_pos hp] at hi; cases hi
        · exact ⟨Bool.eq_false_iff.mpr hp, by rwa [if_neg hp] at hi⟩
      refine ⟨i + 1, ?_⟩
      unfold numMatchAt
      rw [List.drop_succ_cons]
      rw [if_neg ?_]
      · exact hpre.2
      · -- precededByDigit (c :: rest) (i + 1) is false
        cases i with
        | zero =>
          -- c cannot be a digit: otherwise numRunHere suffix (c :: rest) would match
          rw [precededByDigit_cons_one]
          intro habs
          obtain ⟨w, hw⟩ := numRunHere_cons_digit suffix c rest habs v
            (by simpa using hpre.2)
          rw [hw] at hc
          cases hc
        | succ j =>
          rw [precededByDigit_cons_succ, hpre.1]
          intro habs
          cases habs

theorem findNum_complete (suffix s : List Char) (i v : Nat)
    (h : numMatchAt suffix s i = some v) : ∃ w, findNum suffix s = some w := by
  induction s generalizing i with
  | nil => rw [numMatchAt_of_le suffix [] i (Nat.zero_le i)] at h; cases h
  | cons c rest ih =>
    cases hc : numRunHere suffix (c :: rest) with
    | some w => exact ⟨w, by rw [findNum, hc]⟩
    | none =>
      cases i with
      | zero =>
        unfold numMatchAt precededByDigit at h
        rw [List.drop_zero, hc] at h
        simp at h
      | succ j =>
        have hpre : precededByDigit (c :: rest) (j + 1) = false ∧
            numRunHere suffix (rest.drop j) = some v := by
          unfold numMatchAt at h
          by_cases hp : precededByDigit (c :: rest) (j + 1) = true
          · rw [if_pos hp] at h; cases h
          · refine ⟨Bool.eq_false_iff.mpr hp, ?_⟩
            rw [if_neg hp] at h
            rwa [List.drop_succ_cons] at h
        have h2 : numMatchAt suffix rest j = some v := by
          unfold numMatchAt
          rw [if_neg ?_]
          · exact hpre.2
          · cases j with
            | zero => rw [precededByDigit_zero]; intro habs; cases habs
            | succ k =>
              have hp1 : precededByDigit rest (k + 1) = false := by
                rw [← precededByDigit_cons_succ c rest k]
                exact hpre.1
              rw [hp1]
              intro habs
              cases habs
        obtain ⟨w, hw⟩ := ih j h2
        exact ⟨w, by rw [findNum, hc, hw]⟩

theorem containsSub_of_prefix_drop (pat s : List Char) (i : Nat)
    (h : pat.isPrefixOf (s.drop i) = true) : containsSub pat s = true := by
  induction s generalizing i with
  | nil => rw [List.drop_nil] at h; simpa [containsSub] using h
  | cons c rest ih =>
    cases i with
    | zero =>
      rw [List.drop_zero] at h
      rw [containsSub, h, Bool.true_or]
    | succ j =>
      rw [List.drop_succ_cons] at h
      rw [containsSub, ih j h, Bool.or_true]

theorem containsSub_of_collectedMatch (s : List Char) (i v : Nat)
    (h : collectedMatchAt s i = some v) : containsSub collectedLit s = true := by
  unfold collectedMatchAt collectedHere at h
  by_cases hp : collectedLit.isPrefixOf (s.drop i) = true
  · exact containsSub_of_prefix_drop collectedLit s i hp
  · rw [if_neg ?_] at h
    · cases h
    · simpa using hp

theorem findCollected_none (s : List Char) (h : ∀ i, collectedMatchAt s i = none) :
    findCollected s = none := by
  cases hf : findCollected s with
  | none => rfl
  | some v =>
    obtain ⟨i, hi⟩ := findCollected_sound s v hf
    rw [h i] at hi
    cases hi

theorem findNum_none (suffix s : List Char) (h : ∀ i, numMatchAt suffix s i = none) :
    findNum suffix s = none := by
  cases hf : findNum suffix s with
  | none => rfl
  | some v =>
    obtain ⟨i, hi⟩ := findNum_sound suffix s v hf
    rw [h i] at hi
    cases hi

theorem parseExitAndText_zero_collected (stdout : List Char)
    (hsub : containsSub collectedLit stdout = true) :
    parseExitAndText 0 stdout =
      { total_tests := match findCollected stdout with | some n => (n : Int) | none => 0
        passed := match findNum passedLit stdout with | some n => (n : Int) | none => 0
        skipped := match findNum skippedLit stdout with | some n => (n : Int) | none => 0 } := by
  unfold parseExitAndText
  rw [if_pos rfl, if_pos hsub]

/-- C1 counterexample: the claim quantifies over every raw execution result,
but the textual parsing of the collected/passed/skipped patterns runs only in
the exit-code-0 branch of the source.  For exit code 1 with the very stdout
of scenario A — which contains `collected 2 items` (a match at position 0
with value 2) and `2 passed` (a match at position 19 with value 2) — the
returned summary is `total_tests = 0, passed = 0, failed = -1`, not
`total_tests = 2, passed = 2` as the claim requires. -/
theorem run_tests_exit1_ignores_textual_counts :
    collectedMatchAt "collected 2 items\n\n2 passed in 0.01s\n".toList 0 = some 2 ∧
    numMatchAt passedLit "collected 2 items\n\n2 passed in 0.01s\n".toList 19 = some 2 ∧
    run_tests (.ok 1 "collected 2 items\n\n2 passed in 0.01s\n".toList) none =
      ⟨0, 0, -1, 0, 0, 0⟩ ∧
    (run_tests (.ok 1 "collected 2 items\n\n2 passed in 0.01s\n".toList) none).total_tests ≠ 2 ∧
    (run_tests (.ok 1 "collected 2 items\n\n2 passed in 0.01s\n".toList) none).passed ≠ 2 := by
  refine ⟨by decide, by decide, by decide, by decide, by decide⟩

/-- C1 amended: restricted to exit code 0.  For every captured stdout in
which the pattern `collected (\d+) items?` occurs and every occurrence yields
the same count `n`, and the pattern `(\d+) passed` occurs and every
occurrence yields the same count `m`, `run_tests` on exit code 0 with no
report file returns a summary with `total_tests = n` and `passed = m`,
regardless of the surrounding noise text; at a non-zero exit code the
textual counts are ignored. -/
theorem run_tests_textual_counts (stdout : List Char) (n m : Nat)
    (hc : ∃ i, collectedMatchAt stdout i = some n)
    (hcu : ∀ i, collectedMatchAt stdout i = none ∨ collectedMatchAt stdout i = some n)
    (hp : ∃ i, numMatchAt passedLit stdout i = some m)
    (hpu : ∀ i, numMatchAt passedLit stdout i = none ∨ numMatchAt passedLit stdout i = some m) :
    (run_tests (.ok 0 stdout) none).total_tests = (n : Int) ∧
      (run_tests (.ok 0 stdout) none).passed = (m : Int) := by
  obtain ⟨i, hci⟩ := hc
  obtain ⟨j, hpj⟩ := hp
  have hsub : containsSub collectedLit stdout = true :=
    containsSub_of_collectedMatch stdout i n hci
  obtain ⟨w, hw⟩ := findCollected_complete stdout i n hci
  obtain ⟨i2, hi2⟩ := findCollected_sound stdout w hw
  have hwn : w = n := by
    rcases hcu i2 with h | h
    · rw [hi2] at h; cases h
    · rw [hi2] at h; exact Option.some.inj h
  obtain ⟨u, hu⟩ := findNum_complete passedLit stdout j m hpj
  obtain ⟨j2, hj2⟩ := findNum_sound passedLit stdout u hu
  have hum : u = m := by
    rcases hpu j2 with h | h
    · rw [hj2] at h; cases h
    · rw [hj2] at h; exact Option.some.inj h
  subst hwn
  subst hum
  have e : run_tests (.ok 0 stdout) none = parseExitAndText 0 stdout := rfl
  rw [e, parseExitAndText_zero_collected stdout hsub, hw, hu]
  exact ⟨rfl, rfl⟩

/-- Witness for C1, instantiated at concrete scenario A of the specification:
stdout `"collected 2 items\n\n2 passed in 0.01s\n"`, exit code 0, no report
file, giving `TestSummary(total=2, passed=2, failed=0, skipped=0,
errored=0)`. -/
theorem run_tests_textual_counts_witness :
    (run_tests (.ok 0 "collected 2 items\n\n2 passed in 0.01s\n".toList) none).total_tests = 2 ∧
    (run_tests (.ok 0 "collected 2 items\n\n2 passed in 0.01s\n".toList) none).passed = 2 ∧
    run_tests (.ok 0 "collected 2 items\n\n2 passed in 0.01s\n".toList) none =
      ⟨2, 2, 0, 0, 0, 0⟩ := by
  refine ⟨?_, ?_, by decide⟩
  · exact (run_tests_textual_counts _ 2 2 ⟨0, by decide⟩
      (collectedMatchAt_agree _ 2 (by decide)) ⟨19, by decide⟩
      (numMatchAt_agree passedLit _ 2 (by decide))).1
  · exact (run_tests_textual_counts _ 2 2 ⟨0, by decide⟩
      (collectedMatchAt_agree _ 2 (by decide)) ⟨19, by decide⟩
      (numMatchAt_agree passedLit _ 2 (by decide))).2

/-- C2 counterexample: a structured report whose summary stores its error
count under the key `"errored"` (here `errored = 0`, as in the concrete
report of the claim) does not override the errors field: with exit code 2
the returned summary keeps the exit-code sentinel `errors = -1`, not the
report value 0, because the source reads the key `"error"`. -/
theorem run_tests_report_errored_key_ignored :
    (run_tests (.ok 2 [])
        (some { total := some 5, passed := some 5, failed := some 0, skipped := some 0,
                errored := some 0, duration := some (123/100) })).errors = -1 ∧
      (-1 : Int) ≠ 0 := by
  exact ⟨rfl, by decide⟩

/-- C2 amended: fields a report defines under the keys
`total`/`passed`/`failed`/`skipped`/`error`/`duration` override all
lower-precedence values exactly, whatever the execution outcome of the
completed process was, and a value stored under the key `"errored"` is
ignored; fields the report does not define keep their lower-precedence
values. -/
theorem run_tests_report_field_override :
    (∀ (rc : Int) (stdout : List Char) (t p f sk e : Int) (er : Option Int) (d : Rat),
      run_tests (.ok rc stdout)
          (some { total := some t, passed := some p, failed := some f, skipped := some sk,
                  error := some e, errored := er, duration := some d }) =
        { total_tests := t, passed := p, failed := f, skipped := sk, errors := e,
          duration := d }) ∧
    (∀ (rc : Int) (stdout : List Char) (er : Option Int),
      run_tests (.ok rc stdout) (some { errored := er }) =
        run_tests (.ok rc stdout) none) := by
  constructor
  · intro rc stdout t p f sk e er d
    rfl
  · intro rc stdout er
    rfl

/-- C3: evaluation of `run_tests` at the failing input — exit code 1 with
stdout `"2 failed in 0.05s"` and no report file.  The claim (and the
specification) require `failed = 2` from the textual match; the code returns
the sentinel `failed = -1`, because `import re` only executes in the
exit-code-0 branch, so the `(\d+) failed` search raises a `NameError` that
the bare `except` swallows. -/
theorem run_tests_exit1_failed_sentinel :
    run_tests (.ok 1 "2 failed in 0.05s".toList) none = ⟨0, 0, -1, 0, 0, 0⟩ := by
  decide

/-- C4 counterexample: when the test-tool binary is absent, the returned
summary has `errors = 1`, which is not the -1 "undeterminable" sentinel the
claim requires. -/
theorem run_tests_tool_missing_not_sentinel :
    (run_tests .fileNotFound none).errors = 1 ∧ (1 : Int) ≠ -1 := by
  exact ⟨rfl, by decide⟩

/-- C4 amended: when spawning the external test tool raises file-not-found,
`run_tests` does not raise: whatever the report argument, it returns an
ERROR-classified summary with `errors = 1` (a positive marker, not the -1
sentinel) and all other counts zero. -/
theorem run_tests_tool_missing (rpt : Option ReportSummary) :
    run_tests .fileNotFound rpt = ⟨0, 0, 0, 0, 1, 0⟩ := rfl

/-- C5: after every call to `run_self_test` — whichever way the execution
unfolds, including when the execution step raises — the temporary self-test
artifact no longer exists on disk when the call returns. -/
theorem run_self_test_cleanup (e : SelfTestExec) :
    ((run_self_test e).2).artifactOnDisk = false := by
  cases e with
  | prepareRaises => rfl
  | execRaises => rfl
  | completes rc stdout => rfl

/-- C6: `run_self_test` returns `True` if and only if the spawned self-test
process completes with exit code 0; the textual confirmation `"1 passed"` in
stdout does not affect the outcome (both branches yield `True`), and any
non-zero exit code or a raising execution step yields `False`. -/
theorem run_self_test_pass_iff (e : SelfTestExec) :
    (run_self_test e).1 = true ↔ ∃ stdout, e = SelfTestExec.completes 0 stdout := by
  cases e with
  | prepareRaises => simp [run_self_test, selfTestBody]
  | execRaises => simp [run_self_test, selfTestBody]
  | completes rc stdout =>
    constructor
    · intro h
      refine ⟨stdout, ?_⟩
      by_cases hrc : rc = 0
      · rw [hrc]
      · exfalso
        simp [run_self_test, selfTestBody, hrc] at h
    · rintro ⟨s, hs⟩
      cases hs
      simp [run_self_test, selfTestBody]

/-- Witness for C6: exit code 0 with stdout lacking `"1 passed"` still gives
`True`; exit code 1 gives `False` even when `"1 passed"` occurs. -/
theorem run_self_test_pass_iff_witness :
    (run_self_test (SelfTestExec.completes 0 [])).1 = true ∧
      (run_self_test (SelfTestExec.completes 1 "1 passed".toList)).1 = false := by
  exact ⟨(run_self_test_pass_iff _).mpr ⟨[], rfl⟩, by decide⟩

/-- C7: `discover_tests` always returns a list of exactly one path: for the
scopes `all` and `smoke` it returns the test root; for any other scope it
returns the joined scope subdirectory when `os.path.isdir` accepts it and
degrades to the test root otherwise — never an empty list. -/
theorem discover_tests_resolution (dir : List Char) (isdir : List Char → Bool)
    (scope : TestScope) :
    (discover_tests dir isdir scope).length = 1 ∧
    ((scope = TestScope.all ∨ scope = TestScope.smoke) →
      discover_tests dir isdir scope = [dir]) ∧
    (scope ≠ TestScope.all → scope ≠ TestScope.smoke →
      discover_tests dir isdir scope =
        if isdir (pathJoin dir scope.value) then [pathJoin dir scope.value] else [dir]) := by
  unfold discover_tests
  by_cases h : scope ≠ TestScope.all ∧ scope ≠ TestScope.smoke
  · rw [if_pos h]
    refine ⟨?_, ?_, fun _ _ => rfl⟩
    · split <;> rfl
    · intro habs
      rcases habs with h1 | h1
      · exact absurd h1 h.1
      · exact absurd h1 h.2
  · rw [if_neg h]
    push_neg at h
    exact ⟨rfl, fun _ => rfl, fun h1 h2 => absurd (h h1) h2⟩

/-- Witness for C7, instantiated at concrete scenario D of the specification:
scope `integration` with no existing subdirectory resolves to the test
root. -/
theorem discover_tests_resolution_witness :
    discover_tests "tests".toList (fun _ => false) TestScope.integration = ["tests".toList] := by
  have h := (discover_tests_resolution "tests".toList (fun _ => false)
    TestScope.integration).2.2 (by decide) (by decide)
  rw [h]
  decide

/-- C8 counterexample: for exit code 0 with stdout
`"collected 1 item 5 passed"` and no report, `run_tests` returns
`total_tests = 1`, `passed = 5` and zeros elsewhere: every count is
non-negative and the total is positive, yet
`passed + failed + skipped + errors > total_tests`. -/
theorem run_tests_sum_exceeds_total :
    run_tests (.ok 0 "collected 1 item 5 passed".toList) none = ⟨1, 5, 0, 0, 0, 0⟩ ∧
    ¬((run_tests (.ok 0 "collected 1 item 5 passed".toList) none).passed +
        (run_tests (.ok 0 "collected 1 item 5 passed".toList) none).failed +
        (run_tests (.ok 0 "collected 1 item 5 passed".toList) none).skipped +
        (run_tests (.ok 0 "collected 1 item 5 passed".toList) none).errors ≤
        (run_tests (.ok 0 "collected 1 item 5 passed".toList) none).total_tests) := by
  constructor <;> decide

/-- C8 amended: `run_tests` enforces no arithmetic relation between
independently extracted counts; the invariant
`passed + failed + skipped + errors <= total_tests` does hold whenever all
five counts come from a structured report whose own values satisfy it. -/
theorem run_tests_report_invariant (rc : Int) (stdout : List Char)
    (t p f sk e : Int) (er : Option Int) (d : Rat)
    (hsum : p + f + sk + e ≤ t) :
    (run_tests (.ok rc stdout)
        (some { total := some t, passed := some p, failed := some f, skipped := some sk,
                error := some e, errored := er, duration := some d })).passed +
      (run_tests (.ok rc stdout)
        (some { total := some t, passed := some p, failed := some f, skipped := some sk,
                error := some e, errored := er, duration := some d })).failed +
      (run_tests (.ok rc stdout)
        (some { total := some t, passed := some p, failed := some f, skipped := some sk,
                error := some e, errored := er, duration := some d })).skipped +
      (run_tests (.ok rc stdout)
        (some { total := some t, passed := some p, failed := some f, skipped := some sk,
                error := some e, errored := er, duration := some d })).errors ≤
      (run_tests (.ok rc stdout)
        (some { total := some t, passed := some p, failed := some f, skipped := some sk,
                error := some e, errored := er, duration := some d })).total_tests := by
  exact hsum

/-- Witness for the amended C8, at a report with
`total = 5, passed = 5, failed = skipped = errors = 0`. -/
theorem run_tests_report_invariant_witness :
    (run_tests (.ok 0 [])
        (some { total := some 5, passed := some 5, failed := some 0, skipped := some 0,
                error := some 0, errored := none, duration := some 0 })).passed +
      (run_tests (.ok 0 [])
        (some { total := some 5, passed := some 5, failed := some 0, skipped := some 0,
                error := some 0, errored := none, duration := some 0 })).failed +
      (run_tests (.ok 0 [])
        (some { total := some 5, passed := some 5, failed := some 0, skipped := some 0,
                error := some 0, errored := none, duration := some 0 })).skipped +
      (run_tests (.ok 0 [])
        (some { total := some 5, passed := some 5, failed := some 0, skipped := some 0,
                error := some 0, errored := none, duration := some 0 })).errors ≤
      (run_tests (.ok 0 [])
        (some { total := some 5, passed := some 5, failed := some 0, skipped := some 0,
                error := some 0, errored := none, duration := some 0 })).total_tests := by
  exact run_tests_report_invariant 0 [] 5 5 0 0 0 none 0 (by decide)

/-- C9 counterexample: a run with exit code 1 and no recognizable summary
line leaves `failed = -1`, and the command-line entry point renders that
summary as process exit code 0, although the claim requires a non-zero exit
code whenever `failed` is not exactly 0. -/
theorem main_exit_zero_on_sentinel :
    mainExitCode (run_tests (.ok 1 "no recognizable summary".toList) none) = 0 ∧
      (run_tests (.ok 1 "no recognizable summary".toList) none).failed = -1 := by
  constructor <;> decide

/-- C9 amended: the entry point exits with 0 if and only if both `failed` and
`errors` are at most 0 — a strictly positive count gives exit code 1, but
the -1 sentinel values are rendered as success. -/
theorem main_exit_code_iff (s : TestSummary) :
    mainExitCode s = 0 ↔ (s.failed ≤ 0 ∧ s.errors ≤ 0) := by
  unfold mainExitCode
  by_cases h : 0 < s.failed ∨ 0 < s.errors
  · rw [if_pos h]
    constructor
    · intro h1
      exact absurd h1 (by decide)
    · intro hc
      rcases h with h | h <;> [exact absurd h (by omega); exact absurd h (by omega)]
  · rw [if_neg h]
    push_neg at h
    exact ⟨fun _ => h, fun _ => rfl⟩

/-- Witness for the amended C9: a summary with one genuine failure exits
non-zero; an all-passed summary exits 0. -/
theorem main_exit_code_iff_witness :
    mainExitCode ⟨3, 1, 2, 0, 0, 0⟩ ≠ 0 ∧ mainExitCode ⟨2, 2, 0, 0, 0, 0⟩ = 0 := by
  constructor
  · intro h
    exact absurd ((main_exit_code_iff _).mp h).1 (by decide)
  · exact (main_exit_code_iff _).mpr ⟨by decide, by decide⟩

/-- C10: on exit code 0, the `passed = -1` sentinel is applied exactly when
stdout does not contain the substring `"collected "`; when it does, `passed`
is non-negative, and when additionally none of the three count patterns
occurs anywhere in stdout, the returned summary is all zeros —
indistinguishable from a genuine zero-test run. -/
theorem run_tests_collected_sentinel_and_zeros (stdout : List Char) :
    (containsSub collectedLit stdout = false →
      run_tests (.ok 0 stdout) none = ⟨0, -1, 0, 0, 0, 0⟩) ∧
    (containsSub collectedLit stdout = true →
      0 ≤ (run_tests (.ok 0 stdout) none).passed) ∧
    (containsSub collectedLit stdout = true →
      (∀ i, collectedMatchAt stdout i = none) →
      (∀ i, numMatchAt passedLit stdout i = none) →
      (∀ i, numMatchAt skippedLit stdout i = none) →
      run_tests (.ok 0 stdout) none = ⟨0, 0, 0, 0, 0, 0⟩) := by
  have e : run_tests (.ok 0 stdout) none = parseExitAndText 0 stdout := rfl
  refine ⟨?_, ?_, ?_⟩
  · intro h
    rw [e]
    unfold parseExitAndText
    rw [if_pos rfl, if_neg (by rw [h]; exact Bool.false_ne_true)]
  · intro h
    rw [e, parseExitAndText_zero_collected stdout h]
    cases hf : findNum passedLit stdout with
    | some k =>
      simp only [hf]
      exact Int.ofNat_nonneg k
    | none =>
      simp only [hf]
      exact le_refl 0
  · intro h hcoll hpass hskip
    rw [e, parseExitAndText_zero_collected stdout h, findCollected_none stdout hcoll,
      findNum_none passedLit stdout hpass, findNum_none skippedLit stdout hskip]

/-- Witness for C10: stdout `"no tests ran"` gives the `passed` sentinel;
stdout `"collected items"` (substring present, no pattern match) gives the
all-zero summary. -/
theorem run_tests_collected_sentinel_and_zeros_witness :
    run_tests (.ok 0 "no tests ran".toList) none = ⟨0, -1, 0, 0, 0, 0⟩ ∧
      run_tests (.ok 0 "collected items".toList) none = ⟨0, 0, 0, 0, 0, 0⟩ := by
  constructor
  · exact (run_tests_collected_sentinel_and_zeros _).1 (by decide)
  · exact (run_tests_collected_sentinel_and_zeros _).2.2 (by decide)
      (collectedMatchAt_none_all _ (by decide))
      (numMatchAt_none_all passedLit _ (by decide))
      (numMatchAt_none_all skippedLit _ (by decide))

/-- Witness for the amended C2, at a report defining every field. -/
theorem run_tests_report_field_override_witness :
    run_tests (.ok 0 [])
        (some { total := some 5, passed := some 5, failed := some 0, skipped := some 0,
                error := some 0, errored := none, duration := some 0 }) =
      ⟨5, 5, 0, 0, 0, 0⟩ :=
  run_tests_report_field_override.1 0 [] 5 5 0 0 0 none 0

/-- Witness for the amended C4, at a call with no report file. -/
theorem run_tests_tool_missing_witness :
    run_tests .fileNotFound none = ⟨0, 0, 0, 0, 1, 0⟩ :=
  run_tests_tool_missing none

/-- Witness for C5, at an execution whose subprocess step raises. -/
theorem run_self_test_cleanup_witness :
    ((run_self_test SelfTestExec.execRaises).2).artifactOnDisk = false :=
  run_self_test_cleanup SelfTestExec.execRaises
